import Mathlib

/-!
Shallow embedding of the Pane Bridge Adapter of this repository,
src/mux/src/tmux_pty.rs: the `TmuxReader`/`TmuxPty` implementations of
`Read`, `Write`, `Child` and `MasterPty`.  Machine integers are modelled
as `Nat` with explicit `% 2 ^ 16` where the source casts with `as u16`;
fallible Rust calls return a `RustResult` that distinguishes `Ok`,
`Err` and a panic; the blocking `flume` receive is modelled as a
function of the channel state that can report that it would block.
-/

/-- One decoded output chunk: the bytes of a Rust `String` as handed to
`buf.write(str.as_bytes())`. -/
abbrev Chunk := List Nat

/-- The consumer view of a pane's flume output channel: the chunks sent
but not yet received, and whether every sender has been dropped
(pane exited or connection torn down). -/
structure Channel where
  pending : List Chunk
  closed : Bool
deriving DecidableEq

/-- Result of a blocking `flume::Receiver::recv` call. -/
inductive RecvResult where
  | ok (chunk : Chunk) (rest : Channel)
  | disconnected
  | blocked
deriving DecidableEq

/-- Semantics of `flume::Receiver::recv`: deliver the oldest pending
chunk if one exists (even on a closed channel, flume drains queued
messages first), report `RecvError::Disconnected` once the channel is
drained and closed, and block while it is drained but still open. -/
def Channel.recv : Channel → RecvResult
  | ⟨c :: rest, cl⟩ => .ok c ⟨rest, cl⟩
  | ⟨[], true⟩ => .disconnected
  | ⟨[], false⟩ => .blocked

/-- Result of one `TmuxReader::read(buf)` call: `ok n written rest` is
`Ok(n)` with `written` the bytes copied into the caller's buffer and
`rest` the channel state afterwards; `err` is an `io::Error` return;
`blocked` means the call is parked in `recv`. -/
inductive ReadResult where
  | ok (n : Nat) (written : Chunk) (rest : Channel)
  | err
  | blocked
deriving DecidableEq

/-- The `TmuxReader` handle: it holds a clone of the pane's
`flume::Receiver`, identified here by the index `rx` of the shared
channel it receives from. -/
structure TmuxReader where
  rx : Nat
deriving DecidableEq

/-- Body of `TmuxReader::read` from src/mux/src/tmux_pty.rs, as a
function of the state of the channel behind `self.rx` and of the
caller's buffer length.  On `Ok(str)` it returns
`buf.write(str.as_bytes())`, which for `&mut [u8]` copies
`min(str.len(), buf.len())` bytes and returns that count, silently
dropping the rest of `str`; on `Err(_)` it returns `Ok(0)`. -/
def TmuxReader.read (ch : Channel) (bufLen : Nat) : ReadResult :=
  match ch.recv with
  | .ok s rest => .ok (min s.length bufLen) (s.take bufLen) rest
  | .disconnected => .ok 0 [] ch
  | .blocked => .blocked

/-- Bytes obtained by reading the listed chunks one `TmuxReader.read`
call at a time, each call with a buffer of length `bufLen`: each call
yields `c.take bufLen` of its chunk `c`. -/
def drainReads (bufLen : Nat) : List Chunk → List Nat
  | [] => []
  | c :: rest => c.take bufLen ++ drainReads bufLen rest

/-- Modelled from the spec: the registry entry type `TmuxRemotePane`
lives in src/mux/src/tmux.rs, which is not among these sources.
Spec section 3 gives RemotePaneState = id, width (cols), height (rows),
cursor position, liveness flag (the channel sender endpoint is kept in
the channel model above).  The geometry fields are integers wider than
u16 in the source — the adapter narrows them with `as u16` — so they
are modelled as unbounded `Nat`. -/
structure TmuxRemotePane where
  pane_id : Nat
  pane_width : Nat
  pane_height : Nat
  cursor_x : Nat
  cursor_y : Nat
  pane_dead : Bool
deriving DecidableEq

/-- portable_pty::PtySize; all four fields are u16 in the source. -/
structure PtySize where
  rows : Nat
  cols : Nat
  pixel_width : Nat
  pixel_height : Nat
deriving DecidableEq

/-- Outcome of a fallible Rust call: `Ok`, `Err`, or a panic
(`todo!()` unwinds). -/
inductive RustResult (α : Type) where
  | ok (a : α)
  | err
  | panicked
deriving DecidableEq

/-- Rust `as u16` on an unsigned integer: reduction modulo 2^16. -/
def u16cast (n : Nat) : Nat := n % 65536

/-- The `TmuxPty` adapter: `master_pane` is the identity of the shared
`Arc<Mutex<TmuxRemotePane>>` registry entry, `rx` the identity of the
shared flume channel its receiver endpoint drains. -/
structure TmuxPty where
  master_pane : Nat
  rx : Nat
deriving DecidableEq

/-- Modelled from the spec: the Control-Connection Loop (src/mux/src/tmux.rs,
not among these sources) applies `LayoutChanged{id, w, h}` by setting the
entry's geometry fields and touching nothing else (spec section 4.2). -/
def TmuxRemotePane.applyLayout (pane : TmuxRemotePane) (w h : Nat) : TmuxRemotePane :=
  { pane with pane_width := w, pane_height := h }

/-- Modelled from the spec: applying `LayoutChanged{id, w, h}` to the
registry, here a map from `Arc` identity to entry, updates only the
addressed entry. -/
def applyLayoutChanged (reg : Nat → TmuxRemotePane) (ref w h : Nat) :
    Nat → TmuxRemotePane :=
  fun i => if i = ref then (reg i).applyLayout w h else reg i

/-- `Write::write` for `TmuxPty`: the body is a TODO and returns
`Ok(0)` without touching the buffer or any state. -/
def TmuxPty.write (_p : TmuxPty) (_buf : Chunk) : RustResult Nat := .ok 0

/-- `Write::flush` for `TmuxPty`: returns `Ok(())`. -/
def TmuxPty.flush (_p : TmuxPty) : RustResult Unit := .ok ()

/-- `Child::try_wait` for `TmuxPty`: the body is `todo!()`, so every
call panics. -/
def TmuxPty.try_wait (_p : TmuxPty) : RustResult (Option Nat) := .panicked

/-- `Child::kill` for `TmuxPty`: the body is `todo!()`, so every call
panics. -/
def TmuxPty.kill (_p : TmuxPty) : RustResult Unit := .panicked

/-- `Child::wait` for `TmuxPty`: the body is `loop {}`.  Fuel-indexed
evaluation: `waitFuel p fuel` is the value returned within `fuel` loop
iterations, and the empty loop body never breaks with a value. -/
def TmuxPty.waitFuel (p : TmuxPty) : Nat → Option Nat
  | 0 => none
  | fuel + 1 => TmuxPty.waitFuel p fuel

/-- `wait` diverges: no amount of fuel makes it return. -/
def TmuxPty.waitNeverReturns (p : TmuxPty) : Prop :=
  ∀ fuel, TmuxPty.waitFuel p fuel = none

/-- `Child::process_id` for `TmuxPty`: the constant `Some(0)`. -/
def TmuxPty.process_id (_p : TmuxPty) : Option Nat := some 0

/-- `MasterPty::process_group_leader` for `TmuxPty`: the constant
`None`. -/
def TmuxPty.process_group_leader (_p : TmuxPty) : Option Int := none

/-- `MasterPty::resize` for `TmuxPty`: the body is a TODO; it returns
`Ok(())` and performs no mutation, so the registry comes back
unchanged. -/
def TmuxPty.resize (reg : Nat → TmuxRemotePane) (_p : TmuxPty) (_size : PtySize) :
    RustResult Unit × (Nat → TmuxRemotePane) :=
  (.ok (), reg)

/-- `MasterPty::get_size` for `TmuxPty`: locks `master_pane` and reads
the entry, returning its height and width narrowed with `as u16` and
zero pixel dimensions.  It only reads: the registry is not part of the
result. -/
def TmuxPty.get_size (reg : Nat → TmuxRemotePane) (p : TmuxPty) : RustResult PtySize :=
  let pane := reg p.master_pane
  .ok ⟨u16cast pane.pane_height, u16cast pane.pane_width, 0, 0⟩

/-- `MasterPty::try_clone_reader` for `TmuxPty`: always `Ok`, returning
a `TmuxReader` holding a clone of `self.rx` — a receiver on the same
channel. -/
def TmuxPty.try_clone_reader (p : TmuxPty) : RustResult TmuxReader :=
  .ok ⟨p.rx⟩

/-- `MasterPty::try_clone_writer` for `TmuxPty`: always `Ok`, returning
a `TmuxPty` holding clones of the same `master_pane` and `rx`. -/
def TmuxPty.try_clone_writer (p : TmuxPty) : RustResult TmuxPty :=
  .ok ⟨p.master_pane, p.rx⟩

/-! Theorems, one per claim, with counterexamples and witnesses. -/

/-- Helper for the read-preservation analysis: when every chunk fits in
the caller's buffer, draining delivers the concatenation of the chunks. -/
theorem drainReads_join (bufLen : Nat) (L : List Chunk)
    (h : ∀ d ∈ L, d.length ≤ bufLen) : drainReads bufLen L = L.flatten := by
  induction L with
  | nil => rfl
  | cons c rest ih =>
    have hc : c.length ≤ bufLen := h c (List.mem_cons_self c rest)
    simp [drainReads, List.flatten, List.take_of_length_le hc,
      ih fun d hd => h d (List.mem_cons_of_mem c hd)]

/-- C1: once the pane's output channel is drained and closed (pane
exited, connection lost, or every sender dropped), `TmuxReader.read`
returns `Ok(0)` — end-of-stream, not an error and not a hang; while the
channel is still open and empty the call blocks in `recv`; and when a
chunk is available it returns at once with data (a positive count for a
nonempty chunk and buffer), never an error. -/
theorem tmuxReader_read_eof_block_data (ch : Channel) (bufLen : Nat) :
    (ch.pending = [] → ch.closed = true →
      TmuxReader.read ch bufLen = .ok 0 [] ch)
    ∧ (ch.pending = [] → ch.closed = false →
      TmuxReader.read ch bufLen = .blocked)
    ∧ (∀ c rest, ch.pending = c :: rest →
      TmuxReader.read ch bufLen
        = .ok (min c.length bufLen) (c.take bufLen) ⟨rest, ch.closed⟩
      ∧ (c ≠ [] → 0 < bufLen → 0 < min c.length bufLen))
    ∧ TmuxReader.read ch bufLen ≠ .err := by
  obtain ⟨pending, closed⟩ := ch
  refine ⟨?_, ?_, ?_, ?_⟩
  · rintro rfl rfl
    rfl
  · rintro rfl rfl
    rfl
  · rintro c rest rfl
    refine ⟨rfl, fun hc hb => ?_⟩
    have : 0 < c.length := List.length_pos.mpr hc
    omega
  · cases pending with
    | nil => cases closed <;> simp [TmuxReader.read, Channel.recv]
    | cons c rest => simp [TmuxReader.read, Channel.recv]

/-- Witness for C1 at concrete channels: a drained closed channel gives
end-of-stream, a drained open channel blocks, and a channel holding the
chunk [104, 105] gives a positive count with an 8-byte buffer. -/
theorem tmuxReader_read_eof_block_data_witness :
    TmuxReader.read ⟨[], true⟩ 8 = .ok 0 [] ⟨[], true⟩
    ∧ TmuxReader.read ⟨[], false⟩ 8 = .blocked
    ∧ TmuxReader.read ⟨[[104, 105]], true⟩ 8
        = .ok (min 2 8) [104, 105] ⟨[], true⟩
    ∧ 0 < min ([104, 105] : Chunk).length 8 :=
  ⟨(tmuxReader_read_eof_block_data ⟨[], true⟩ 8).1 rfl rfl,
   (tmuxReader_read_eof_block_data ⟨[], false⟩ 8).2.1 rfl rfl,
   ((tmuxReader_read_eof_block_data ⟨[[104, 105]], true⟩ 8).2.2.1
      [104, 105] [] rfl).1,
   ((tmuxReader_read_eof_block_data ⟨[[104, 105]], true⟩ 8).2.2.1
      [104, 105] [] rfl).2 (by decide) (by decide)⟩

/-- C2 counterexample: send the single chunk [97, 98] ("ab") and close
the channel; with a 1-byte caller buffer the first read returns one
byte and discards the byte 98 — the channel retains nothing — and the
next read reports end-of-stream, so the concatenation of everything
read is [97], not [97, 98]: bytes that do not fit ARE lost. -/
theorem tmuxReader_read_drops_tail_cex :
    TmuxReader.read ⟨[[97, 98]], true⟩ 1 = .ok 1 [97] ⟨[], true⟩
    ∧ TmuxReader.read ⟨[], true⟩ 1 = .ok 0 [] ⟨[], true⟩
    ∧ [97] ++ ([] : List Nat) ≠ [97, 98] := by
  decide

/-- C2 as amended: each read delivers exactly the prefix of the oldest
chunk that fits the caller's buffer and removes the whole chunk from
the channel; the remainder beyond the buffer is discarded, so no bytes
are lost (and the concatenation of reads equals the concatenation of
chunks sent) exactly when every chunk fits in the buffer. -/
theorem tmuxReader_read_chunk_prefix (ch : Channel) (bufLen : Nat)
    (c : Chunk) (rest : List Chunk) (h : ch.pending = c :: rest) :
    TmuxReader.read ch bufLen
      = .ok (min c.length bufLen) (c.take bufLen) ⟨rest, ch.closed⟩
    ∧ (c.length ≤ bufLen → c.take bufLen = c)
    ∧ ((∀ d ∈ ch.pending, d.length ≤ bufLen) →
        drainReads bufLen ch.pending = ch.pending.flatten) := by
  obtain ⟨pending, closed⟩ := ch
  subst h
  exact ⟨rfl, fun hc => List.take_of_length_le hc,
    fun hall => drainReads_join bufLen (c :: rest) hall⟩

/-- Witness for C2 as amended, at the chunk [104, 105] with a 4-byte
buffer. -/
theorem tmuxReader_read_chunk_prefix_witness :
    TmuxReader.read ⟨[[104, 105]], false⟩ 4
      = .ok (min 2 4) [104, 105] ⟨[], false⟩
    ∧ ([104, 105] : Chunk).take 4 = [104, 105]
    ∧ drainReads 4 [[104, 105]] = ([[104, 105]] : List Chunk).flatten := by
  have h := tmuxReader_read_chunk_prefix ⟨[[104, 105]], false⟩ 4
    [104, 105] [] rfl
  exact ⟨h.1, h.2.1 (by decide), h.2.2 (by decide)⟩

/-- C3 counterexample: on a concrete adapter (whatever the registry
says about the pane), `try_wait` does not return `Ok(None)` and `kill`
does not return `Ok(())` — both bodies are `todo!()` and panic. -/
theorem try_wait_kill_panic_cex :
    TmuxPty.try_wait ⟨0, 0⟩ = .panicked
    ∧ TmuxPty.try_wait ⟨0, 0⟩ ≠ .ok none
    ∧ TmuxPty.kill ⟨0, 0⟩ = .panicked
    ∧ TmuxPty.kill ⟨0, 0⟩ ≠ .ok () := by
  decide

/-- C3 as amended: `try_wait` and `kill` are unimplemented stubs —
every call panics via `todo!()`, in every pane state, rather than
reporting a still-running process or returning successfully. -/
theorem try_wait_kill_always_panic (p : TmuxPty) :
    TmuxPty.try_wait p = .panicked ∧ TmuxPty.kill p = .panicked :=
  ⟨rfl, rfl⟩

/-- C4 counterexample: `wait` on a concrete adapter never returns — the
body is an unconditional `loop {}` that consults nothing, so no fuel
bound suffices even after the registry marks the pane exited. -/
theorem wait_diverges_cex : TmuxPty.waitNeverReturns ⟨0, 0⟩ := by
  intro fuel
  induction fuel with
  | zero => rfl
  | succ n ih => simpa [TmuxPty.waitFuel] using ih

/-- C4 as amended: `wait` never terminates: its body is an
unconditional empty infinite loop, independent of the registry, so it
blocks forever even once the pane is marked exited and never produces
an exit status. -/
theorem wait_never_returns (p : TmuxPty) (fuel : Nat) :
    TmuxPty.waitFuel p fuel = none := by
  induction fuel with
  | zero => rfl
  | succ n ih => simpa [TmuxPty.waitFuel] using ih

/-- C5: `resize` returns `Ok(())` immediately for every size argument
and leaves the registry untouched, so `get_size` straight after
`resize` observes exactly the geometry from before; the geometry
`get_size` reports changes only when a `LayoutChanged` notification is
applied to the registry entry. -/
theorem resize_is_noop (reg : Nat → TmuxRemotePane) (p : TmuxPty) (size : PtySize) :
    TmuxPty.resize reg p size = (.ok (), reg)
    ∧ TmuxPty.get_size (TmuxPty.resize reg p size).2 p = TmuxPty.get_size reg p
    ∧ ∀ w h, TmuxPty.get_size (applyLayoutChanged reg p.master_pane w h) p
        = .ok ⟨u16cast h, u16cast w, 0, 0⟩ := by
  refine ⟨rfl, rfl, fun w h => ?_⟩
  simp [TmuxPty.get_size, applyLayoutChanged, TmuxRemotePane.applyLayout]

/-- C6 counterexample: apply `LayoutChanged` with width 65536 to the
entry backing the adapter — `get_size` then reports cols = 0, the value
reduced modulo 2^16, not exactly 65536. -/
theorem get_size_not_exact_cex :
    TmuxPty.get_size
        (applyLayoutChanged (fun _ => ⟨1, 80, 24, 0, 0, false⟩) 0 65536 24)
        ⟨0, 0⟩
      = .ok ⟨24, 0, 0, 0⟩
    ∧ (RustResult.ok (⟨24, 0, 0, 0⟩ : PtySize))
        ≠ .ok (⟨24, 65536, 0, 0⟩ : PtySize) := by
  decide

/-- C6 as amended: after `LayoutChanged{id, w, h}` is applied to the
adapter's registry entry, and provided w and h fit in u16 (are below
65536), `get_size` returns exactly cols = w and rows = h (until a later
layout notification supersedes it); `get_size` only reads the entry and
mutates nothing.  For larger stored values the result is the value
reduced modulo 2^16. -/
theorem get_size_after_layout (reg : Nat → TmuxRemotePane) (p : TmuxPty)
    (w h : Nat) (hw : w < 65536) (hh : h < 65536) :
    TmuxPty.get_size (applyLayoutChanged reg p.master_pane w h) p
      = .ok ⟨h, w, 0, 0⟩ := by
  simp [TmuxPty.get_size, applyLayoutChanged, TmuxRemotePane.applyLayout,
    u16cast, Nat.mod_eq_of_lt hw, Nat.mod_eq_of_lt hh]

/-- Witness for C6 as amended at w = 80, h = 24. -/
theorem get_size_after_layout_witness :
    TmuxPty.get_size
        (applyLayoutChanged (fun _ => ⟨1, 10, 10, 0, 0, false⟩) 0 80 24)
        ⟨0, 0⟩
      = .ok ⟨24, 80, 0, 0⟩ :=
  get_size_after_layout (fun _ => ⟨1, 10, 10, 0, 0, false⟩) ⟨0, 0⟩ 80 24
    (by decide) (by decide)

/-- C7 counterexample: writing the two-byte buffer [104, 105] returns
`Ok(0)` — success, but reporting zero bytes consumed, not the caller's
whole buffer. -/
theorem write_consumes_nothing_cex :
    TmuxPty.write ⟨0, 0⟩ [104, 105] = .ok 0
    ∧ (RustResult.ok 0 ≠ RustResult.ok 2) := by
  decide

/-- C7 as amended: for every input buffer, `write` returns `Ok(0)` —
success reporting zero bytes consumed, never an error and never a
panic — and the bytes are not delivered anywhere while the Command
Encoder path is incomplete; `flush` likewise always returns `Ok(())`. -/
theorem write_flush_always_ok (p : TmuxPty) (buf : Chunk) :
    TmuxPty.write p buf = .ok 0
    ∧ TmuxPty.write p buf ≠ .err
    ∧ TmuxPty.write p buf ≠ .panicked
    ∧ TmuxPty.flush p = .ok () := by
  refine ⟨rfl, ?_, ?_, rfl⟩ <;> simp [TmuxPty.write]

/-- C8: `get_size` always reports zero pixel dimensions, and the rows
and cols it returns are the registry entry's `pane_height` and
`pane_width` reduced modulo 2^16 (the `as u16` cast), so they always
fit in u16. -/
theorem get_size_pixel_zero_and_mod (reg : Nat → TmuxRemotePane) (p : TmuxPty) :
    TmuxPty.get_size reg p
      = .ok ⟨(reg p.master_pane).pane_height % 2 ^ 16,
             (reg p.master_pane).pane_width % 2 ^ 16, 0, 0⟩
    ∧ (reg p.master_pane).pane_height % 2 ^ 16 < 2 ^ 16
    ∧ (reg p.master_pane).pane_width % 2 ^ 16 < 2 ^ 16 := by
  refine ⟨?_, ?_, ?_⟩
  · show RustResult.ok _ = _
    norm_num [u16cast]
  · exact Nat.mod_lt _ (by norm_num)
  · exact Nat.mod_lt _ (by norm_num)

/-- C9: in every pane state, `process_id` returns the synthetic pid
`Some(0)` and `process_group_leader` returns `None`. -/
theorem process_id_and_group_leader (p : TmuxPty) :
    TmuxPty.process_id p = some 0
    ∧ TmuxPty.process_group_leader p = none :=
  ⟨rfl, rfl⟩

/-- C10: `try_clone_reader` and `try_clone_writer` always return `Ok`;
the reader clone receives from the same channel (`rx`) as the adapter,
the writer clone holds the same registry entry and channel, and the
clone observes, for every registry state, exactly the geometry the
original observes. -/
theorem try_clone_shares_backing (p : TmuxPty) :
    TmuxPty.try_clone_reader p = .ok ⟨p.rx⟩
    ∧ TmuxPty.try_clone_writer p = .ok ⟨p.master_pane, p.rx⟩
    ∧ ∀ reg, TmuxPty.get_size reg ⟨p.master_pane, p.rx⟩
          = TmuxPty.get_size reg p :=
  ⟨rfl, rfl, fun _ => rfl⟩
